import Mathlib

/-!
Shallow embedding of the `dfdi` dependency-injection registry
(`src/dfdi-core/src/context.rs`, `src/dfdi-core/src/error.rs`,
`src/dfdi-core/src/traits.rs`, `src/src/cached.rs`) and proofs of the
spec claims about it.

Modelling conventions:
* A Rust `Service` type is modelled by a `Service` record carrying its
  `TypeId` (field `id`, a `Nat`) and its `type_name` (field `name`).
* All service outputs are collapsed to one value type `Val := Nat`; the
  type-safety claim (which in Rust is about distinct output types) is
  expressed through the `for_service` tag of the erased cell, which
  records the service type the cell's `provide_fn` was specialised to.
* `HashMap<TypeId, DynProvider>` is modelled as an association list with
  at most one entry per key (all map operations below preserve that).
* Rust methods taking `&mut self` are state-passing functions returning
  the `Result` together with the new `Context`; methods taking `&self`
  are pure functions of the `Context`.
* Concrete providers are defunctionalised into the small language `Prov`
  (a constant provider, or a closure that resolves a dependency through
  the context it is handed and post-processes the result); the
  interpreter `Prov.run` takes fuel because a provider may recursively
  resolve through the registry, which in Rust may diverge.
-/

namespace Dfdi

/-- The single output type of all services in this embedding
(`S::Output<'cx>` collapsed to `Nat`). -/
abbrev Val := Nat

/-- A service key: `id` models `TypeId::of::<S>()` (the map key used by
`Context`), `name` models `std::any::type_name::<S>()` (used in error
messages and panics). Distinct Rust types have distinct `TypeId`s. -/
structure Service where
  id : Nat
  name : String
deriving DecidableEq, Repr

/-- Defunctionalised concrete provider (`P: Provider<'cx, S>` /
`impl Fn(&Context) -> Output` from `src/dfdi-core/src/impls.rs`):
either a constant, or a closure that calls `cx.resolve` on a dependency
service id and transforms the result. -/
inductive Prov where
  | const (v : Val)
  | resolveMap (dep : Nat) (f : Val → Val)

/-- Error while binding (`src/dfdi-core/src/error.rs`, `BindError`);
`serviceBound` carries `type_name::<S>()`. -/
inductive BindError where
  | serviceBound (service : String)
deriving DecidableEq, Repr

/-- Error while unbinding (`src/dfdi-core/src/error.rs`, `UnbindError`);
`serviceUnbound` carries `type_name::<S>()`. -/
inductive UnbindError where
  | serviceUnbound (service : String)
deriving DecidableEq, Repr

/-- `Display for BindError`: `service `S` is already bound to a provider`. -/
def BindError.msg : BindError → String
  | .serviceBound service => "service `" ++ service ++ "` is already bound to a provider"

/-- `Display for UnbindError`: `service `S` is not bound to a provider`. -/
def UnbindError.msg : UnbindError → String
  | .serviceUnbound service => "service `" ++ service ++ "` is not bound to a provider"

/-- The type-erased provider cell (`DynProvider` in
`src/dfdi-core/src/context.rs`):
* `for_service` records the concrete service type `S` that the stored
  `provide_fn` pointer was specialised to by `DynProvider::new::<S, P>`
  (in Rust this lives in the erased type of `provide_fn`, not in a
  runtime field; the tag makes it visible to the logic).
* `code` models the pair (`this`, `provide_fn`): the boxed concrete
  provider and its `P::provide` behaviour.
* `drop_fn` models the `Option`-ness of the `drop_fn` field: `true` for
  the original cell made by `DynProvider::new` (which boxes and will
  drop the provider), `false` for clones (whose `drop_fn` is `None`). -/
structure DynProvider where
  for_service : Nat
  code : Prov
  drop_fn : Bool

/-- `DynProvider::new::<S, P>(provider)`: boxes the provider, stores the
`provide_fn` specialised to `S`, and installs the real `drop_fn`. -/
def DynProvider.new (s : Service) (p : Prov) : DynProvider :=
  { for_service := s.id, code := p, drop_fn := true }

/-- `impl Clone for DynProvider`: copies `this` and `provide_fn`, but
sets `drop_fn: None` — drop should only run on the original instance. -/
def DynProvider.clone (d : DynProvider) : DynProvider :=
  { d with drop_fn := false }

/-- `impl Drop for DynProvider`: the number of times dropping this cell
releases the owned provider instance (1 when `drop_fn` is `Some`,
0 when it is `None`). -/
def DynProvider.releaseCount (d : DynProvider) : Nat :=
  if d.drop_fn then 1 else 0

/-- The registry (`Context` in `src/dfdi-core/src/context.rs`): an
association list modelling `providers: HashMap<TypeId, DynProvider>`. -/
structure Context where
  providers : List (Nat × DynProvider)

/-- `HashMap::get(&k)` on the association list. -/
def lookupKey (k : Nat) : List (Nat × DynProvider) → Option DynProvider
  | [] => none
  | e :: rest => if e.1 = k then some e.2 else lookupKey k rest

/-- `HashMap::remove(&k)`: the resulting table has no entry for `k`
(keys are unique in any reachable map, so dropping every entry whose
key equals `k` is exactly the map's removal). -/
def removeKey (k : Nat) : List (Nat × DynProvider) → List (Nat × DynProvider)
  | [] => []
  | e :: rest => if e.1 = k then removeKey k rest else e :: removeKey k rest

/-- `Context::new()`: the empty registry. -/
def Context.new : Context := ⟨[]⟩

/-- `Context::scoped(&self)`: clones the `HashMap`, which clones every
`DynProvider` through its custom `Clone` impl (same `this` and
`provide_fn` pointers, `drop_fn: None`). The child's table is a
separate map holding inert copies of the parent's cells. -/
def Context.scoped (cx : Context) : Context :=
  ⟨cx.providers.map (fun e => (e.1, e.2.clone))⟩

/-- `Context::try_bind_with::<S>(&mut self, provider)`: on a vacant
entry for `TypeId::of::<S>()` inserts `DynProvider::new(provider)` and
returns `Ok(())`; on an occupied entry returns
`Err(BindError::ServiceBound(type_name::<S>()))` without touching the
map. -/
def Context.try_bind_with (cx : Context) (s : Service) (p : Prov) :
    Except BindError Unit × Context :=
  match lookupKey s.id cx.providers with
  | some _ => (.error (.serviceBound s.name), cx)
  | none => (.ok (), ⟨(s.id, DynProvider.new s p) :: cx.providers⟩)

/-- `Context::try_bind_fn`: delegates to `try_bind_with` (the closure is
itself a provider, `src/dfdi-core/src/impls.rs`). -/
def Context.try_bind_fn (cx : Context) (s : Service) (p : Prov) :
    Except BindError Unit × Context :=
  cx.try_bind_with s p

/-- `Context::try_bind::<S, P>`: delegates to `try_bind_with` with
`P::default()`. -/
def Context.try_bind (cx : Context) (s : Service) (dflt : Prov) :
    Except BindError Unit × Context :=
  cx.try_bind_with s dflt

/-- `Context::try_unbind::<S>(&mut self)`: `HashMap::remove`; `Ok(())`
when an entry was present, otherwise
`Err(UnbindError::ServiceUnbound(type_name::<S>()))` with the map
untouched. -/
def Context.try_unbind (cx : Context) (s : Service) :
    Except UnbindError Unit × Context :=
  match lookupKey s.id cx.providers with
  | some _ => (.ok (), ⟨removeKey s.id cx.providers⟩)
  | none => (.error (.serviceUnbound s.name), cx)

/-- Interpreter for defunctionalised providers, with fuel: a `const`
provider ignores the context; a `resolveMap` provider calls
`cx.resolve::<Dep>()` on the context it was handed and post-processes
the output. `none` models divergence / a panic inside the provider
(fuel exhaustion on a cyclic dependency chain, or a missing dependency
resolved through the panicking API), never a registry-level failure. -/
def Prov.run : Nat → Prov → Context → Option Val
  | _, .const v, _ => some v
  | 0, .resolveMap _ _, _ => none
  | fuel + 1, .resolveMap dep f, cx =>
    match lookupKey dep cx.providers with
    | none => none
    | some d => (Prov.run fuel d.code cx).map f

/-- `DynProvider::provide::<S>(&self, cx)`: transmutes `provide_fn`
back to `ProvideFn<'cx, S>` and calls it on (`this`, `cx`) — i.e. runs
the stored concrete provider on the given context. -/
def DynProvider.provide (d : DynProvider) (fuel : Nat) (cx : Context) : Option Val :=
  Prov.run fuel d.code cx

/-- `Context::try_resolve::<S>(&self)`: looks up `TypeId::of::<S>()`;
`None` exactly when no entry exists; otherwise invokes the found cell's
`provide` with `self` as the context argument. The outer `Option` is
the registry's `Option<S::Output>`; the inner `Option` is the fuel
interpreter's partiality. -/
def Context.try_resolve (cx : Context) (fuel : Nat) (s : Service) :
    Option (Option Val) :=
  match lookupKey s.id cx.providers with
  | none => none
  | some d => some (d.provide fuel cx)

/-- `Context::try_resolve` with the `&self` receiver made explicit:
resolution returns the output next to the registry state, which it
never modifies (the Rust receiver is a shared reference). -/
def Context.try_resolve_st (cx : Context) (fuel : Nat) (s : Service) :
    Option (Option Val) × Context :=
  (cx.try_resolve fuel s, cx)

/-- `Context::bind_with` (panicking surface): `try_bind_with`, turning
`Err(err)` into `panic!("{}", err)` — modelled as `Except.error` with
the `Display` message. -/
def Context.bind_with (cx : Context) (s : Service) (p : Prov) :
    Except String Context :=
  match cx.try_bind_with s p with
  | (.ok _, cx') => .ok cx'
  | (.error e, _) => .error e.msg

/-- `Context::unbind` (panicking surface): `try_unbind`, turning
`Err(err)` into `panic!("{}", err)`. -/
def Context.unbind (cx : Context) (s : Service) : Except String Context :=
  match cx.try_unbind s with
  | (.ok _, cx') => .ok cx'
  | (.error e, _) => .error e.msg

/-- `Context::resolve` (panicking surface): `try_resolve`, turning
`None` into `panic!("no provider for service `{}`", type_name::<S>())`. -/
def Context.resolve (cx : Context) (fuel : Nat) (s : Service) :
    Except String (Option Val) :=
  match cx.try_resolve fuel s with
  | some r => .ok r
  | none => .error ("no provider for service `" ++ s.name ++ "`")

/-- `Context::scoped` never fails; its "panicking surface" is the same
single total operation, here wrapped to exhibit the empty failure set
(spec §6: `scoped` | never fails). -/
def Context.scopedChecked (cx : Context) : Except String Context :=
  .ok cx.scoped

/-- Registry states reachable through the public operations. The
panicking variants are sugar over the fallible ones (same successor
state on success, no successor on panic), and the `bind`/`bind_fn`
variants delegate to `try_bind_with`, so these four transitions cover
the whole public surface; `try_resolve` takes `&self` and adds no
transition. Failed `try_bind_with`/`try_unbind` return the unchanged
state, so using the second component covers both outcomes. -/
inductive Reachable : Context → Prop where
  | new : Reachable Context.new
  | scope {cx : Context} : Reachable cx → Reachable cx.scoped
  | bind {cx : Context} (s : Service) (p : Prov) :
      Reachable cx → Reachable (cx.try_bind_with s p).2
  | unbind {cx : Context} (s : Service) :
      Reachable cx → Reachable (cx.try_unbind s).2

/-- `d` arises from `o` by one or more `DynProvider::clone` steps (the
duplicates made for scoped registries, and their further duplicates). -/
inductive CloneOf : DynProvider → DynProvider → Prop where
  | base (o : DynProvider) : CloneOf o o.clone
  | step {o d : DynProvider} : CloneOf o d → CloneOf o d.clone

/-- The memoising provider (`Cached` in `src/src/cached.rs`): owns a
wrapped provider and a `OnceCell` cache. The wrapped provider may step
shared interior state (the spec's counting provider), so it is modelled
as a transition function from a per-call input `ι` (the `(cx, arg)`
pair of that call) and the shared state `σ` to an output and a new
state. -/
structure Cached (ι σ α : Type) where
  provider : ι → σ → α × σ
  cache : Option α

/-- `Cached::new(provider)`: empty cache. -/
def Cached.new {ι σ α : Type} (p : ι → σ → α × σ) : Cached ι σ α :=
  { provider := p, cache := none }

/-- `Cached::provide` = `self.cache.get_or_init(|| self.provider.provide(cx, arg))`
sequentially: on a hit return the cached value and run nothing; on a
miss run the wrapped provider once on this call's input, store its
output, and return it. -/
def Cached.provide {ι σ α : Type} (c : Cached ι σ α) (i : ι) (st : σ) :
    α × Cached ι σ α × σ :=
  match c.cache with
  | some v => (v, c, st)
  | none =>
    let r := c.provider i st
    (r.1, { provider := c.provider, cache := some r.1 }, r.2)

/-- Run `N` sequential invocations of one `Cached` cell (one list entry
per call's input), collecting the outputs and the final cell / shared
state. -/
def Cached.runSeq {ι σ α : Type} :
    Cached ι σ α → σ → List ι → List α × Cached ι σ α × σ
  | c, st, [] => ([], c, st)
  | c, st, i :: rest =>
    let r := c.provide i st
    let t := Cached.runSeq r.2.1 r.2.2 rest
    (r.1 :: t.1, t.2)

/-- One mutation step in a world of several live registries, used to
state frame properties: applying a bind or unbind to registry `i`
leaves every other registry's table untouched. -/
inductive Op where
  | bindOp (s : Service) (p : Prov)
  | unbindOp (s : Service)

/-- Apply one mutating operation to one registry. -/
def applyOp (cx : Context) : Op → Context
  | .bindOp s p => (cx.try_bind_with s p).2
  | .unbindOp s => (cx.try_unbind s).2

/-- Apply one mutating operation to the registry at index `i` of a
world of registries. -/
def stepAt (w : List Context) (i : Nat) (op : Op) : List Context :=
  match w[i]? with
  | none => w
  | some cx => w.set i (applyOp cx op)

/-! ### Helper lemmas -/

theorem lookupKey_cons (e : Nat × DynProvider) (l : List (Nat × DynProvider)) (k : Nat) :
    lookupKey k (e :: l) = if e.1 = k then some e.2 else lookupKey k l := rfl

theorem lookupKey_map_clone (k : Nat) (l : List (Nat × DynProvider)) :
    lookupKey k (l.map (fun e => (e.1, e.2.clone))) =
      (lookupKey k l).map DynProvider.clone := by
  induction l with
  | nil => rfl
  | cons e rest ih =>
    simp only [List.map_cons, lookupKey]
    by_cases h : e.1 = k
    · simp [h]
    · simp [h, ih]

theorem lookupKey_removeKey_self (k : Nat) (l : List (Nat × DynProvider)) :
    lookupKey k (removeKey k l) = none := by
  induction l with
  | nil => rfl
  | cons e rest ih =>
    by_cases h : e.1 = k
    · simpa [removeKey, h] using ih
    · simp [removeKey, lookupKey, h, ih]

theorem lookupKey_removeKey_ne (j k : Nat) (l : List (Nat × DynProvider))
    (h : j ≠ k) : lookupKey k (removeKey j l) = lookupKey k l := by
  induction l with
  | nil => rfl
  | cons e rest ih =>
    by_cases hej : e.1 = j
    · have hek : e.1 ≠ k := fun hk => h (hej.symm.trans hk)
      have hr : removeKey j (e :: rest) = removeKey j rest := by
        simp [removeKey, hej]
      rw [hr, ih, lookupKey_cons, if_neg hek]
    · have hr : removeKey j (e :: rest) = e :: removeKey j rest := by
        simp [removeKey, hej]
      rw [hr, lookupKey_cons, lookupKey_cons, ih]

theorem DynProvider.clone_code (d : DynProvider) : d.clone.code = d.code := rfl

theorem DynProvider.clone_for_service (d : DynProvider) :
    d.clone.for_service = d.for_service := rfl

/-- A provider observes only the `code` parts of the table, which
`scoped` preserves, so running any provider against the scoped child
gives the same output as against the parent. -/
theorem Prov.run_scoped (fuel : Nat) (p : Prov) (cx : Context) :
    Prov.run fuel p cx.scoped = Prov.run fuel p cx := by
  induction fuel generalizing p with
  | zero => cases p <;> rfl
  | succ n ih =>
    cases p with
    | const v => rfl
    | resolveMap dep f =>
      have hl : lookupKey dep cx.scoped.providers =
          (lookupKey dep cx.providers).map DynProvider.clone :=
        lookupKey_map_clone dep cx.providers
      simp only [Prov.run]
      rw [hl]
      cases hlk : lookupKey dep cx.providers with
      | none => rfl
      | some d =>
        simp only [Option.map_some]
        show (Prov.run n d.clone.code cx.scoped).map f = (Prov.run n d.code cx).map f
        rw [DynProvider.clone_code, ih d.code]

/-- The table invariant behind `try_resolve`'s `unsafe` block: every
cell stored at key `k` was constructed (by `DynProvider::new`) for the
service whose `TypeId` is `k`. -/
def WellKeyed (cx : Context) : Prop :=
  ∀ k d, lookupKey k cx.providers = some d → d.for_service = k

theorem wellKeyed_new : WellKeyed Context.new := by
  intro k d h
  cases h

theorem wellKeyed_scoped {cx : Context} (h : WellKeyed cx) :
    WellKeyed cx.scoped := by
  intro k d hd
  rw [show cx.scoped.providers = cx.providers.map (fun e => (e.1, e.2.clone)) from rfl,
    lookupKey_map_clone] at hd
  cases hl : lookupKey k cx.providers with
  | none => rw [hl] at hd; cases hd
  | some d0 =>
    rw [hl] at hd
    have : d0.clone = d := by simpa using hd
    rw [← this, DynProvider.clone_for_service]
    exact h k d0 hl

theorem wellKeyed_bind {cx : Context} (s : Service) (p : Prov)
    (h : WellKeyed cx) : WellKeyed (cx.try_bind_with s p).2 := by
  intro k d hd
  unfold Context.try_bind_with at hd
  cases hl : lookupKey s.id cx.providers with
  | some d0 =>
    rw [hl] at hd
    exact h k d hd
  | none =>
    rw [hl] at hd
    simp only at hd
    rw [lookupKey_cons] at hd
    by_cases hk : s.id = k
    · rw [if_pos hk] at hd
      have : DynProvider.new s p = d := by simpa using hd
      rw [← this]
      exact hk
    · rw [if_neg hk] at hd
      exact h k d hd

theorem wellKeyed_unbind {cx : Context} (s : Service)
    (h : WellKeyed cx) : WellKeyed (cx.try_unbind s).2 := by
  intro k d hd
  unfold Context.try_unbind at hd
  cases hl : lookupKey s.id cx.providers with
  | some d0 =>
    rw [hl] at hd
    simp only at hd
    by_cases hk : s.id = k
    · rw [← hk, lookupKey_removeKey_self] at hd
      cases hd
    · rw [lookupKey_removeKey_ne s.id k _ hk] at hd
      exact h k d hd
  | none =>
    rw [hl] at hd
    exact h k d hd

theorem wellKeyed_reachable {cx : Context} (h : Reachable cx) : WellKeyed cx := by
  induction h with
  | new => exact wellKeyed_new
  | scope _ ih => exact wellKeyed_scoped ih
  | bind s p _ ih => exact wellKeyed_bind s p ih
  | unbind s _ ih => exact wellKeyed_unbind s ih

theorem CloneOf.drop_fn_false {o d : DynProvider} (h : CloneOf o d) :
    d.drop_fn = false := by
  induction h with
  | base => rfl
  | step _ _ => rfl

/-- After the cache is filled, every further invocation returns the
cached value and leaves the cell and the shared state untouched. -/
theorem Cached.runSeq_cached {ι σ α : Type} (is : List ι)
    (p : ι → σ → α × σ) (v : α) (st : σ) :
    Cached.runSeq { provider := p, cache := some v } st is =
      (List.replicate is.length v, { provider := p, cache := some v }, st) := by
  induction is with
  | nil => rfl
  | cons i rest ih =>
    simp only [Cached.runSeq, Cached.provide, ih, List.replicate]

/-! ### Claim theorems -/

/-- Claim C1: in every registry state reachable through the public
operations, when `try_resolve::<S>` finds an entry in the binding table
and invokes it, that erased provider cell was constructed for `S` (its
`provide_fn` was specialised by `DynProvider::new` to `S`'s concrete
provider and output types, recorded here by `for_service`); a provider
bound for one service is never invoked as the provider of a different
service. -/
theorem claim1_resolve_type_safety (cx : Context) (s : Service) (fuel : Nat)
    (d : DynProvider) (hr : Reachable cx)
    (hd : lookupKey s.id cx.providers = some d) :
    d.for_service = s.id ∧ cx.try_resolve fuel s = some (d.provide fuel cx) := by
  refine ⟨wellKeyed_reachable hr s.id d hd, ?_⟩
  unfold Context.try_resolve
  rw [hd]

theorem claim1_resolve_type_safety_witness :
    (DynProvider.new ⟨0, "Svc"⟩ (.const 5)).for_service = (⟨0, "Svc"⟩ : Service).id ∧
    ((Context.new.try_bind_with ⟨0, "Svc"⟩ (.const 5)).2).try_resolve 1 ⟨0, "Svc"⟩ =
      some ((DynProvider.new ⟨0, "Svc"⟩ (.const 5)).provide 1
        (Context.new.try_bind_with ⟨0, "Svc"⟩ (.const 5)).2) :=
  claim1_resolve_type_safety _ _ 1 _ (Reachable.bind _ _ Reachable.new) rfl

/-- Claim C2: after a successful bind of `K` to `P1`, a second bind of
`K` to `P2` on the same registry fails with `AlreadyBound` naming `K`
and leaves the registry unchanged; `K` stays bound to the cell built
from `P1`, and resolving `K` invokes `P1` and returns its output. -/
theorem claim2_double_bind (cx cx1 : Context) (s : Service) (p1 p2 : Prov)
    (fuel : Nat) (h : cx.try_bind_with s p1 = (.ok (), cx1)) :
    (cx1.try_bind_with s p2).1 = .error (.serviceBound s.name) ∧
    (cx1.try_bind_with s p2).2 = cx1 ∧
    lookupKey s.id cx1.providers = some (DynProvider.new s p1) ∧
    cx1.try_resolve fuel s = some ((DynProvider.new s p1).provide fuel cx1) := by
  unfold Context.try_bind_with at h
  cases hl : lookupKey s.id cx.providers with
  | some d =>
    rw [hl] at h
    exact Except.noConfusion (congrArg Prod.fst h)
  | none =>
    rw [hl] at h
    have h2 : (⟨(s.id, DynProvider.new s p1) :: cx.providers⟩ : Context) = cx1 :=
      congrArg Prod.snd h
    subst h2
    refine ⟨?_, ?_, ?_, ?_⟩ <;>
      simp [Context.try_bind_with, Context.try_resolve, lookupKey]

theorem claim2_double_bind_witness :
    ((⟨[(0, DynProvider.new ⟨0, "Cache"⟩ (.const 7))]⟩ : Context).try_bind_with
        ⟨0, "Cache"⟩ (.const 8)).1 = .error (.serviceBound "Cache") ∧
    ((⟨[(0, DynProvider.new ⟨0, "Cache"⟩ (.const 7))]⟩ : Context).try_bind_with
        ⟨0, "Cache"⟩ (.const 8)).2 = ⟨[(0, DynProvider.new ⟨0, "Cache"⟩ (.const 7))]⟩ ∧
    lookupKey (⟨0, "Cache"⟩ : Service).id
        (⟨[(0, DynProvider.new ⟨0, "Cache"⟩ (.const 7))]⟩ : Context).providers =
      some (DynProvider.new ⟨0, "Cache"⟩ (.const 7)) ∧
    (⟨[(0, DynProvider.new ⟨0, "Cache"⟩ (.const 7))]⟩ : Context).try_resolve 1 ⟨0, "Cache"⟩ =
      some ((DynProvider.new ⟨0, "Cache"⟩ (.const 7)).provide 1
        ⟨[(0, DynProvider.new ⟨0, "Cache"⟩ (.const 7))]⟩) :=
  claim2_double_bind Context.new _ ⟨0, "Cache"⟩ (.const 7) (.const 8) 1 rfl

/-- Claim C5: the fallible resolve fails (returns `None`) exactly when
the table has no entry for `K` (own or inherited entries alike sit in
the table, since `scoped` copies them in); when an entry is present,
resolve looks it up and invokes the bound cell's `provide` with the
resolving registry itself as the context argument, returning exactly
that provider's output. -/
theorem claim5_resolve_spec (cx : Context) (s : Service) (fuel : Nat) :
    (cx.try_resolve fuel s = none ↔ lookupKey s.id cx.providers = none) ∧
    cx.try_resolve fuel s
      = (lookupKey s.id cx.providers).map (fun d => d.provide fuel cx) := by
  unfold Context.try_resolve
  cases lookupKey s.id cx.providers <;> simp

/-- Claim C7: each operation's failure leaves the registry's binding
table exactly as it was before the call — a failing bind on any
registry `cxA`, a failing unbind on any registry `cxB` (fresh
registries included), and a resolve on any registry `cxC` at any key
`sC`, whether it succeeds or fails with no provider, all return the
input table; there is no partial-bind or partial-resolve state. -/
theorem claim7_failure_frame
    (cxA : Context) (sA : Service) (pA : Prov) (eA : BindError)
    (hA : (cxA.try_bind_with sA pA).1 = .error eA)
    (cxB : Context) (sB : Service) (eB : UnbindError)
    (hB : (cxB.try_unbind sB).1 = .error eB)
    (cxC : Context) (sC : Service) (fuelC : Nat) :
    (cxA.try_bind_with sA pA).2 = cxA ∧
    (cxB.try_unbind sB).2 = cxB ∧
    (cxC.try_resolve_st fuelC sC).2 = cxC := by
  refine ⟨?_, ?_, rfl⟩
  · unfold Context.try_bind_with at hA ⊢
    cases hl : lookupKey sA.id cxA.providers with
    | some d => rfl
    | none =>
      rw [hl] at hA
      exact Except.noConfusion hA
  · unfold Context.try_unbind at hB ⊢
    cases hl : lookupKey sB.id cxB.providers with
    | some d =>
      rw [hl] at hB
      exact Except.noConfusion hB
    | none => rfl

theorem claim7_failure_frame_witness :
    ((⟨[(0, DynProvider.new ⟨0, "Log"⟩ (.const 4))]⟩ : Context).try_bind_with
        ⟨0, "Log"⟩ (.const 9)).2 = ⟨[(0, DynProvider.new ⟨0, "Log"⟩ (.const 4))]⟩ ∧
    (Context.new.try_unbind ⟨1, "Db"⟩).2 = Context.new ∧
    (Context.new.try_resolve_st 1 ⟨1, "Db"⟩).2 = Context.new :=
  claim7_failure_frame ⟨[(0, DynProvider.new ⟨0, "Log"⟩ (.const 4))]⟩
    ⟨0, "Log"⟩ (.const 9) (.serviceBound "Log") rfl
    Context.new ⟨1, "Db"⟩ (.serviceUnbound "Db") rfl
    Context.new ⟨1, "Db"⟩ 1

/-- Claim C3 (counterexample): the claim says binding `K` on a scoped
child whose only binding for `K` is inherited succeeds; on the code it
fails with `AlreadyBound`, because `scoped` copies the parent's entries
into the child's own table and `try_bind_with` finds the entry
occupied. -/
theorem claim3_counterexample :
    ((((Context.new.try_bind_with ⟨0, "Cfg"⟩ (.const 1)).2).scoped).try_bind_with
        ⟨0, "Cfg"⟩ (.const 2)).1 = .error (.serviceBound "Cfg") := rfl

/-- Claim C3 (amended): for a parent `R` with a binding for `K` and
child `C = R.scoped()`, binding `K` on `C` fails with `AlreadyBound`
naming `K` (the inherited entry occupies `C`'s table); shadowing
requires an explicit unbind on `C` first, after which the bind succeeds
and resolving `K` through `C` uses the newly bound provider, while
`R`'s own entry is untouched. -/
theorem claim3_amended (R : Context) (s : Service) (d : DynProvider)
    (p' : Prov) (fuel : Nat) (hd : lookupKey s.id R.providers = some d) :
    (R.scoped.try_bind_with s p').1 = .error (.serviceBound s.name) ∧
    ((R.scoped.try_unbind s).2.try_bind_with s p').1 = .ok () ∧
    (((R.scoped.try_unbind s).2.try_bind_with s p').2).try_resolve fuel s
      = some (Prov.run fuel p' (((R.scoped.try_unbind s).2.try_bind_with s p').2)) ∧
    lookupKey s.id R.providers = some d := by
  have hsc : lookupKey s.id R.scoped.providers = some d.clone := by
    rw [show R.scoped.providers = R.providers.map (fun e => (e.1, e.2.clone)) from rfl,
      lookupKey_map_clone, hd]
    rfl
  have h2 : R.scoped.try_unbind s = (.ok (), ⟨removeKey s.id R.scoped.providers⟩) := by
    unfold Context.try_unbind
    rw [hsc]
  have h3 : lookupKey s.id (⟨removeKey s.id R.scoped.providers⟩ : Context).providers = none :=
    lookupKey_removeKey_self s.id _
  have h4 : (⟨removeKey s.id R.scoped.providers⟩ : Context).try_bind_with s p'
      = (.ok (), ⟨(s.id, DynProvider.new s p') :: removeKey s.id R.scoped.providers⟩) := by
    unfold Context.try_bind_with
    rw [h3]
  refine ⟨?_, ?_, ?_, hd⟩
  · unfold Context.try_bind_with
    rw [hsc]
  · rw [h2, h4]
  · rw [h2, h4]
    simp [Context.try_resolve, lookupKey, DynProvider.provide, DynProvider.new]

theorem claim3_amended_witness :
    (((⟨[(0, DynProvider.new ⟨0, "Cfg"⟩ (.const 1))]⟩ : Context).scoped.try_bind_with
        ⟨0, "Cfg"⟩ (.const 2)).1 = .error (.serviceBound "Cfg")) ∧
    ((((⟨[(0, DynProvider.new ⟨0, "Cfg"⟩ (.const 1))]⟩ : Context).scoped.try_unbind
        ⟨0, "Cfg"⟩).2.try_bind_with ⟨0, "Cfg"⟩ (.const 2)).1 = .ok ()) ∧
    ((((⟨[(0, DynProvider.new ⟨0, "Cfg"⟩ (.const 1))]⟩ : Context).scoped.try_unbind
        ⟨0, "Cfg"⟩).2.try_bind_with ⟨0, "Cfg"⟩ (.const 2)).2).try_resolve 1 ⟨0, "Cfg"⟩
      = some (Prov.run 1 (.const 2)
          ((((⟨[(0, DynProvider.new ⟨0, "Cfg"⟩ (.const 1))]⟩ : Context).scoped.try_unbind
            ⟨0, "Cfg"⟩).2.try_bind_with ⟨0, "Cfg"⟩ (.const 2)).2)) ∧
    lookupKey (⟨0, "Cfg"⟩ : Service).id
        (⟨[(0, DynProvider.new ⟨0, "Cfg"⟩ (.const 1))]⟩ : Context).providers
      = some (DynProvider.new ⟨0, "Cfg"⟩ (.const 1)) :=
  claim3_amended _ ⟨0, "Cfg"⟩ _ (.const 2) 1 rfl

/-- Claim C4 (counterexample): the claim says `unbind(K)` on a scoped
child with only an inherited binding for `K` fails with `NotBound`; on
the code it succeeds, because `scoped` copied the parent's entry into
the child's own table and `HashMap::remove` finds it. -/
theorem claim4_counterexample :
    ((((Context.new.try_bind_with ⟨0, "Db"⟩ (.const 3)).2).scoped).try_unbind ⟨0, "Db"⟩).1
      = .ok () ∧
    ¬ ((((Context.new.try_bind_with ⟨0, "Db"⟩ (.const 3)).2).scoped).try_unbind ⟨0, "Db"⟩).1
      = .error (.serviceUnbound "Db") :=
  ⟨rfl, fun h => Except.noConfusion h⟩

/-- Claim C4 (amended): `try_unbind(K)` removes exactly this registry's
own table entry for `K` — and entries copied from a parent at scoping
time are this registry's own entries, so they too are removed — failing
with `NotBound` naming `K` precisely when this registry's table has no
entry for `K`; entries at other keys (and any other registry's table)
are untouched. -/
theorem claim4_amended (cx : Context) (s : Service) (k : Nat) (hk : k ≠ s.id) :
    ((cx.try_unbind s).1 = .error (.serviceUnbound s.name)
      ↔ lookupKey s.id cx.providers = none) ∧
    lookupKey s.id ((cx.try_unbind s).2).providers = none ∧
    lookupKey k ((cx.try_unbind s).2).providers = lookupKey k cx.providers := by
  unfold Context.try_unbind
  cases hl : lookupKey s.id cx.providers with
  | some d =>
    refine ⟨?_, ?_, ?_⟩
    · simp
    · exact lookupKey_removeKey_self s.id cx.providers
    · exact lookupKey_removeKey_ne s.id k cx.providers (fun h => hk h.symm)
  | none =>
    exact ⟨by simp, hl, rfl⟩

theorem claim4_amended_witness :
    (((⟨[(0, DynProvider.new ⟨0, "Db"⟩ (.const 3))]⟩ : Context).try_unbind ⟨0, "Db"⟩).1
        = .error (.serviceUnbound "Db")
      ↔ lookupKey (⟨0, "Db"⟩ : Service).id
          (⟨[(0, DynProvider.new ⟨0, "Db"⟩ (.const 3))]⟩ : Context).providers = none) ∧
    lookupKey (⟨0, "Db"⟩ : Service).id
        (((⟨[(0, DynProvider.new ⟨0, "Db"⟩ (.const 3))]⟩ : Context).try_unbind
          ⟨0, "Db"⟩).2).providers = none ∧
    lookupKey 1 (((⟨[(0, DynProvider.new ⟨0, "Db"⟩ (.const 3))]⟩ : Context).try_unbind
        ⟨0, "Db"⟩).2).providers
      = lookupKey 1 (⟨[(0, DynProvider.new ⟨0, "Db"⟩ (.const 3))]⟩ : Context).providers :=
  claim4_amended _ ⟨0, "Db"⟩ 1 (by decide)

/-- Claim C6: `scoped` yields a child whose binding table is a
structural copy of the parent's at the moment of the call (each entry
is the `Clone` of the parent's cell, so every key resolves through the
child to the same output as through the parent), and a subsequent bind
or unbind applied to any one registry in a world of live registries
leaves every other registry's table — parent or child — unchanged. -/
theorem claim6_scoped_copy_independence (R : Context) (k : Nat) (fuel : Nat)
    (s : Service) (w : List Context) (i j : Nat) (op : Op) (hij : j ≠ i) :
    lookupKey k R.scoped.providers = (lookupKey k R.providers).map DynProvider.clone ∧
    R.scoped.try_resolve fuel s = R.try_resolve fuel s ∧
    (stepAt w i op)[j]? = w[j]? := by
  refine ⟨lookupKey_map_clone k R.providers, ?_, ?_⟩
  · unfold Context.try_resolve
    have hl : lookupKey s.id R.scoped.providers
        = (lookupKey s.id R.providers).map DynProvider.clone :=
      lookupKey_map_clone s.id R.providers
    rw [hl]
    cases lookupKey s.id R.providers with
    | none => rfl
    | some d =>
      simp only [Option.map_some]
      show some (d.clone.provide fuel R.scoped) = some (d.provide fuel R)
      unfold DynProvider.provide
      rw [DynProvider.clone_code, Prov.run_scoped]
  · unfold stepAt
    cases w[i]? with
    | none => rfl
    | some cx => exact List.getElem?_set_ne (fun h => hij h.symm)

theorem claim6_scoped_copy_independence_witness :
    lookupKey 0 (⟨[(0, DynProvider.new ⟨0, "Cfg"⟩ (.const 1))]⟩ : Context).scoped.providers
      = (lookupKey 0 (⟨[(0, DynProvider.new ⟨0, "Cfg"⟩ (.const 1))]⟩ : Context).providers).map
          DynProvider.clone ∧
    (⟨[(0, DynProvider.new ⟨0, "Cfg"⟩ (.const 1))]⟩ : Context).scoped.try_resolve 1 ⟨0, "Cfg"⟩
      = (⟨[(0, DynProvider.new ⟨0, "Cfg"⟩ (.const 1))]⟩ : Context).try_resolve 1 ⟨0, "Cfg"⟩ ∧
    (stepAt [⟨[(0, DynProvider.new ⟨0, "Cfg"⟩ (.const 1))]⟩,
        (⟨[(0, DynProvider.new ⟨0, "Cfg"⟩ (.const 1))]⟩ : Context).scoped] 1
        (.bindOp ⟨1, "Db"⟩ (.const 2)))[0]?
      = [(⟨[(0, DynProvider.new ⟨0, "Cfg"⟩ (.const 1))]⟩ : Context),
        (⟨[(0, DynProvider.new ⟨0, "Cfg"⟩ (.const 1))]⟩ : Context).scoped][0]? :=
  claim6_scoped_copy_independence _ 0 1 ⟨0, "Cfg"⟩ _ 1 0 (.bindOp ⟨1, "Db"⟩ (.const 2))
    (by decide)

/-- Claim C8: across `N ≥ 1` sequential invocations of one `Cached`
cell (here `N = is.length + 1`), the wrapped provider's body executes
exactly once — on the first invocation, stepping the shared state by
exactly one provider step — and every invocation returns the value that
first execution stored, whatever that value is (the output type `α` is
arbitrary, so a failure value of a success/failure output type is
cached and returned without retrying just the same). -/
theorem claim8_memoize_once {ι σ α : Type} (p : ι → σ → α × σ) (st0 : σ)
    (i0 : ι) (is : List ι) (v : α) (st1 : σ) (h : p i0 st0 = (v, st1)) :
    Cached.runSeq (Cached.new p) st0 (i0 :: is)
      = (List.replicate (is.length + 1) v, ⟨p, some v⟩, st1) := by
  have hp : (Cached.new p).provide i0 st0 = (v, ⟨p, some v⟩, st1) := by
    simp [Cached.provide, Cached.new, h]
  simp [Cached.runSeq, hp, Cached.runSeq_cached, List.replicate_succ]

theorem claim8_memoize_once_witness :
    Cached.runSeq (Cached.new (fun (_ : Unit) (n : Nat) => (Except.error "denied", n + 1)))
        0 [(), (), ()]
      = (List.replicate 3 (Except.error "denied" : Except String Nat),
          ⟨fun (_ : Unit) (n : Nat) => (Except.error "denied", n + 1),
            some (Except.error "denied")⟩, 1) :=
  claim8_memoize_once (fun (_ : Unit) (n : Nat) => ((Except.error "denied" : Except String Nat), n + 1))
    0 () [(), ()] (Except.error "denied") 1 rfl

/-- Claim C9: over the whole lifetime of a cell family — the original
cell made by `DynProvider::new` together with any duplicates obtained
from it by (iterated) `Clone` — the owned provider instance is released
exactly once: the original's drop performs the single real release and
every duplicate's drop releases nothing; in particular every cell found
in a scoped registry's table is such an inert duplicate. -/
theorem claim9_release_once (s : Service) (p : Prov) (ds : List DynProvider)
    (R : Context) (k : Nat) (d' : DynProvider)
    (hds : ∀ d ∈ ds, CloneOf (DynProvider.new s p) d)
    (hd' : lookupKey k R.scoped.providers = some d') :
    ((DynProvider.new s p :: ds).map DynProvider.releaseCount).sum = 1 ∧
    d'.releaseCount = 0 := by
  constructor
  · have hz : (ds.map DynProvider.releaseCount).sum = 0 := by
      apply List.sum_eq_zero
      intro x hx
      rcases List.mem_map.mp hx with ⟨d, hdmem, hxd⟩
      rw [← hxd]
      simp [DynProvider.releaseCount, (hds d hdmem).drop_fn_false]
    simp [DynProvider.releaseCount, DynProvider.new, hz]
  · rw [show R.scoped.providers = R.providers.map (fun e => (e.1, e.2.clone)) from rfl,
      lookupKey_map_clone] at hd'
    cases hl : lookupKey k R.providers with
    | none =>
      rw [hl] at hd'
      cases hd'
    | some d0 =>
      rw [hl] at hd'
      have hc : d0.clone = d' := by simpa using hd'
      rw [← hc]
      simp [DynProvider.releaseCount, DynProvider.clone]

theorem claim9_release_once_witness :
    ((DynProvider.new ⟨0, "Cfg"⟩ (.const 1) ::
        [(DynProvider.new ⟨0, "Cfg"⟩ (.const 1)).clone,
          (DynProvider.new ⟨0, "Cfg"⟩ (.const 1)).clone.clone]).map
        DynProvider.releaseCount).sum = 1 ∧
    ((DynProvider.new ⟨0, "Cfg"⟩ (.const 1)).clone).releaseCount = 0 :=
  claim9_release_once ⟨0, "Cfg"⟩ (.const 1) _ ⟨[(0, DynProvider.new ⟨0, "Cfg"⟩ (.const 1))]⟩ 0 _
    (by
      intro d hd
      rcases hd with _ | ⟨_, hd⟩
      · exact CloneOf.base _
      · rcases hd with _ | ⟨_, hd⟩
        · exact CloneOf.step (CloneOf.base _)
        · cases hd)
    rfl

/-- Claim C10: each operation's panicking surface is sugar over the
fallible one: `bind_with` / `unbind` / `resolve` fail exactly when
`try_bind_with` / `try_unbind` / `try_resolve` fail, the panic message
is the error's `Display` text and names the service type, and on
success they return exactly the fallible operation's result and leave
exactly its effect; `scoped` never fails, so its panicking surface is
the same single total operation. -/
theorem claim10_panicking_sugar
    (cxA : Context) (sA : Service) (pA : Prov)
    (hA : (cxA.try_bind_with sA pA).1.isOk = false)
    (cxB : Context) (sB : Service) (pB : Prov)
    (hB : (cxB.try_bind_with sB pB).1.isOk = true)
    (cxC : Context) (sC : Service) (hC : (cxC.try_unbind sC).1.isOk = false)
    (cxD : Context) (sD : Service) (hD : (cxD.try_unbind sD).1.isOk = true)
    (cxE : Context) (sE : Service) (fuelE : Nat)
    (hE : cxE.try_resolve fuelE sE = none)
    (cxF : Context) (sF : Service) (fuelF : Nat) (rF : Option Val)
    (hF : cxF.try_resolve fuelF sF = some rF)
    (cxG : Context) :
    cxA.bind_with sA pA
      = .error ("service `" ++ sA.name ++ "` is already bound to a provider") ∧
    cxB.bind_with sB pB = .ok (cxB.try_bind_with sB pB).2 ∧
    cxC.unbind sC = .error ("service `" ++ sC.name ++ "` is not bound to a provider") ∧
    cxD.unbind sD = .ok (cxD.try_unbind sD).2 ∧
    cxE.resolve fuelE sE = .error ("no provider for service `" ++ sE.name ++ "`") ∧
    cxF.resolve fuelF sF = .ok rF ∧
    cxG.scopedChecked = .ok cxG.scoped := by
  refine ⟨?_, ?_, ?_, ?_, ?_, ?_, rfl⟩
  · unfold Context.bind_with
    unfold Context.try_bind_with at hA ⊢
    cases hl : lookupKey sA.id cxA.providers with
    | some d => rfl
    | none =>
      rw [hl] at hA
      cases hA
  · unfold Context.bind_with
    unfold Context.try_bind_with at hB ⊢
    cases hl : lookupKey sB.id cxB.providers with
    | some d =>
      rw [hl] at hB
      cases hB
    | none => rfl
  · unfold Context.unbind
    unfold Context.try_unbind at hC ⊢
    cases hl : lookupKey sC.id cxC.providers with
    | some d =>
      rw [hl] at hC
      cases hC
    | none => rfl
  · unfold Context.unbind
    unfold Context.try_unbind at hD ⊢
    cases hl : lookupKey sD.id cxD.providers with
    | some d => rfl
    | none =>
      rw [hl] at hD
      cases hD
  · unfold Context.resolve
    rw [hE]
  · unfold Context.resolve
    rw [hF]

theorem claim10_panicking_sugar_witness :
    (⟨[(0, DynProvider.new ⟨0, "Log"⟩ (.const 4))]⟩ : Context).bind_with ⟨0, "Log"⟩ (.const 9)
      = .error ("service `" ++ "Log" ++ "` is already bound to a provider") ∧
    Context.new.bind_with ⟨0, "Log"⟩ (.const 4)
      = .ok (Context.new.try_bind_with ⟨0, "Log"⟩ (.const 4)).2 ∧
    Context.new.unbind ⟨0, "Log"⟩
      = .error ("service `" ++ "Log" ++ "` is not bound to a provider") ∧
    (⟨[(0, DynProvider.new ⟨0, "Log"⟩ (.const 4))]⟩ : Context).unbind ⟨0, "Log"⟩
      = .ok ((⟨[(0, DynProvider.new ⟨0, "Log"⟩ (.const 4))]⟩ : Context).try_unbind ⟨0, "Log"⟩).2 ∧
    Context.new.resolve 1 ⟨0, "Log"⟩
      = .error ("no provider for service `" ++ "Log" ++ "`") ∧
    (⟨[(0, DynProvider.new ⟨0, "Log"⟩ (.const 4))]⟩ : Context).resolve 1 ⟨0, "Log"⟩
      = .ok (some 4) ∧
    Context.new.scopedChecked = .ok Context.new.scoped :=
  claim10_panicking_sugar
    ⟨[(0, DynProvider.new ⟨0, "Log"⟩ (.const 4))]⟩ ⟨0, "Log"⟩ (.const 9) rfl
    Context.new ⟨0, "Log"⟩ (.const 4) rfl
    Context.new ⟨0, "Log"⟩ rfl
    ⟨[(0, DynProvider.new ⟨0, "Log"⟩ (.const 4))]⟩ ⟨0, "Log"⟩ rfl
    Context.new ⟨0, "Log"⟩ 1 rfl
    ⟨[(0, DynProvider.new ⟨0, "Log"⟩ (.const 4))]⟩ ⟨0, "Log"⟩ 1 (some 4) rfl
    Context.new

end Dfdi
